import Mathlib

/-!
Verification of the Twin SDK example repository: a shallow embedding of
`src/lib/twin-sdk.ts` (the SDK client singleton) and
`src/components/TwinSDKExample.tsx` (the chat session controller), with
theorems settling the specification's claims about them.

JavaScript conventions modelled explicitly:
- an `env` variable is `Option String` (`none` = undefined);
- JS truthiness of a string: `undefined` and `""` are falsy (`jsTruthy`);
- `a || b` on strings falls through to `b` when `a` is falsy (`jsOr`);
- side effects (network calls, handle construction, toasts) are recorded
  as an explicit `Effect` trace returned next to the new state;
- the outcome of each awaited asynchronous call is an oracle argument
  (`FetchOutcome`, `AsyncOutcome`).
-/

/-- JS truthiness for an optional string: `undefined` and `""` are falsy. -/
def jsTruthy : Option String → Bool
  | none => false
  | some s => !(s == "")

/-- JS `a || b` for an optional string `a` and default `b`. -/
def jsOr (a : Option String) (b : String) : String :=
  match a with
  | none => b
  | some s => if s == "" then b else s

/-- JS `String.prototype.trim`: strip whitespace from both ends. -/
def jsTrim (s : String) : String :=
  ⟨((s.data.dropWhile Char.isWhitespace).reverse.dropWhile Char.isWhitespace).reverse⟩

/-- The placeholder sentinel API key rejected by `twin-sdk.ts`. -/
def PLACEHOLDER : String := "sk_xxxxx"

/-- Vite environment configuration read by `twin-sdk.ts` via `import.meta.env`. -/
structure Env where
  VITE_PLATFORM_API_KEY : Option String
  VITE_PLATFORM_API_URL : Option String
deriving DecidableEq, Repr

/-- The external client constructed by `new SoulCypherSDK({apiKey, baseUrl})`. -/
structure SoulCypherSDK where
  apiKey : String
  baseUrl : String
deriving DecidableEq, Repr

/-- The error message thrown by `getPlatformSDK` when the key is missing
or equal to the placeholder (twin-sdk.ts lines 19-22). -/
def configErrorMsg : String :=
  "SoulCypher Platform API key not configured. Set VITE_PLATFORM_API_KEY in your .env.local file. Get your API key from https://dev.soulcypher.ai"

/-- `getPlatformSDK` from `twin-sdk.ts`. The module-level mutable `sdk`
cache is passed in and the (possibly updated) cache is returned with the
result; a thrown `Error` is an `Except.error` carrying the message. -/
def getPlatformSDK (env : Env) (sdk : Option SoulCypherSDK) :
    Except String (SoulCypherSDK × Option SoulCypherSDK) :=
  match sdk with
  | some c => .ok (c, some c)
  | none =>
    match env.VITE_PLATFORM_API_KEY with
    | none => .error configErrorMsg
    | some apiKey =>
      if apiKey == "" || apiKey == PLACEHOLDER then
        .error configErrorMsg
      else
        let c : SoulCypherSDK :=
          { apiKey := apiKey
            baseUrl := jsOr env.VITE_PLATFORM_API_URL "https://api.soulcypher.ai" }
        .ok (c, some c)

/-- `isPlatformSDKConfigured` from `twin-sdk.ts`: `!!apiKey && apiKey !== 'sk_xxxxx'`. -/
def isPlatformSDKConfigured (env : Env) : Bool :=
  jsTruthy env.VITE_PLATFORM_API_KEY && !(env.VITE_PLATFORM_API_KEY == some PLACEHOLDER)

/-- Message role, `'user' | 'assistant'` in `TwinSDKExample.tsx`. -/
inductive Role
  | user
  | assistant
deriving DecidableEq, Repr

/-- A transcript entry (`interface Message` in `TwinSDKExample.tsx`).
`Date.now()` is modelled by the `Nat` used for both `id` and `timestamp`. -/
structure Message where
  id : String
  role : Role
  content : String
  timestamp : Nat
deriving DecidableEq, Repr

/-- The React state of `TwinSDKExample`, plus the `sessionManagerRef`
(`Option Unit`: the handle itself is opaque, only its presence matters). -/
structure ChatState where
  messages : List Message
  input : String
  isInitializing : Bool
  isSending : Bool
  isWaitingForResponse : Bool
  error : Option String
  sessionManager : Option Unit
deriving DecidableEq, Repr

/-- The initial React state of the component. -/
def initialChatState : ChatState :=
  { messages := []
    input := ""
    isInitializing := false
    isSending := false
    isWaitingForResponse := false
    error := none
    sessionManager := none }

/-- Externally visible side effects of the controller, in issue order. -/
inductive Effect
  | fetchSessions (avatarId userId : String)
  | constructHandle
  | on (eventKind : String)
  | connect
  | forward (text : String)
  | toastInfo (title : String)
  | toastSuccess (title : String)
  | toastError (title : String)
deriving DecidableEq, Repr

/-- Outcome of the awaited `fetch('/api/sessions', ...)` exchange:
an ok response with session data, a non-ok response whose JSON body may
carry an `error` field, or a rejection with an `Error` message. -/
inductive FetchOutcome
  | ok (sessionData : String)
  | httpErr (errorField : Option String)
  | netFail (message : String)
deriving DecidableEq, Repr

/-- Outcome of an awaited SDK call (`connect` or `sendMessage`):
resolves, or rejects with an `Error` message. -/
inductive AsyncOutcome
  | ok
  | fail (message : String)
deriving DecidableEq, Repr

/-- `initializeSession` from `TwinSDKExample.tsx` (lines 85-235).
`avatarId` stands for `DEMO_AVATAR_ID` (a constant the integrator is told
to replace); `fetchOut` and `connectOut` are the outcomes of the two
awaited asynchronous calls. Returns the state at return of the call and
the trace of issued effects. -/
def initializeSession (env : Env) (avatarId : String) (s : ChatState)
    (fetchOut : FetchOutcome) (connectOut : AsyncOutcome) :
    ChatState × List Effect :=
  if s.sessionManager.isSome then
    (s, [.toastInfo "Session already initialized"])
  else if !(isPlatformSDKConfigured env) then
    (s, [.toastError "Platform API key not configured"])
  else if avatarId == "your-avatar-id-here" then
    (s, [.toastError "Avatar ID not configured"])
  else
    let s1 : ChatState := { s with isInitializing := true, error := none }
    match fetchOut with
    | .httpErr errorField =>
      let errorMessage := jsOr errorField "Failed to create session"
      ({ s1 with error := some errorMessage, isInitializing := false },
       [.fetchSessions avatarId "demo-user", .toastError "Initialization failed"])
    | .netFail message =>
      ({ s1 with error := some message, isInitializing := false },
       [.fetchSessions avatarId "demo-user", .toastError "Initialization failed"])
    | .ok _sessionData =>
      match connectOut with
      | .fail message =>
        ({ s1 with error := some message, isInitializing := false },
         [.fetchSessions avatarId "demo-user", .constructHandle,
          .on "avatar.status", .on "avatar.input", .on "avatar.response",
          .on "avatar.error", .connect, .toastError "Initialization failed"])
      | .ok =>
        ({ s1 with sessionManager := some (), isInitializing := false },
         [.fetchSessions avatarId "demo-user", .constructHandle,
          .on "avatar.status", .on "avatar.input", .on "avatar.response",
          .on "avatar.error", .connect, .toastSuccess "Session initialized"])

/-- Result of one `sendMessage` call: `preForward` is the component state
at the moment the forward call `sessionManagerRef.current.sendMessage(...)`
is issued (`none` when a guard returned early and no forward was issued),
`final` the state when the call returns. -/
structure SendResult where
  preForward : Option ChatState
  final : ChatState
  effects : List Effect
deriving DecidableEq, Repr

/-- `sendMessage` from `TwinSDKExample.tsx` (lines 243-277). `now` models
`Date.now()`; `out` is the outcome of the awaited forward call. -/
def sendMessage (s : ChatState) (now : Nat) (out : AsyncOutcome) : SendResult :=
  if jsTrim s.input == "" || s.isSending then
    { preForward := none, final := s, effects := [] }
  else if s.sessionManager.isNone then
    { preForward := none, final := s, effects := [.toastError "Session not initialized"] }
  else
    let content := jsTrim s.input
    let userMessage : Message :=
      { id := toString now, role := .user, content := content, timestamp := now }
    let s1 : ChatState :=
      { s with messages := s.messages ++ [userMessage], input := "",
               isSending := true, isWaitingForResponse := true }
    match out with
    | .ok =>
      { preForward := some s1
        final := { s1 with isSending := false }
        effects := [.forward content] }
    | .fail _message =>
      { preForward := some s1
        final := { s1 with isWaitingForResponse := false, isSending := false }
        effects := [.forward content, .toastError "Failed to send message"] }

/-- Payload of an `avatar.status` event (`event.data` may be absent). -/
structure StatusData where
  status : Option String
deriving DecidableEq, Repr

/-- Payload of an `avatar.input` event. -/
structure InputData where
  inputType : Option String
  text : Option String
deriving DecidableEq, Repr

/-- Payload of an `avatar.response` event. -/
structure ResponseData where
  text : Option String
deriving DecidableEq, Repr

/-- Payload of an `avatar.error` event. -/
structure ErrData where
  message : Option String
deriving DecidableEq, Repr

/-- The `avatar.status` listener (lines 169-175). -/
def handleStatus (s : ChatState) (data : Option StatusData) : ChatState × List Effect :=
  if data.bind StatusData.status == some "ready" then
    ({ s with isInitializing := false }, [.toastSuccess "Avatar is ready!"])
  else
    (s, [])

/-- The `avatar.input` listener (lines 178-189). -/
def handleInput (s : ChatState) (data : Option InputData) (now : Nat) :
    ChatState × List Effect :=
  match data with
  | none => (s, [])
  | some d =>
    if d.inputType == some "voice" then
      let userMessage : Message :=
        { id := toString now, role := .user,
          content := jsOr d.text "Voice input received", timestamp := now }
      ({ s with messages := s.messages ++ [userMessage],
                isWaitingForResponse := true }, [])
    else
      (s, [])

/-- The `avatar.response` listener (lines 192-201). -/
def handleResponse (s : ChatState) (data : Option ResponseData) (now : Nat) :
    ChatState × List Effect :=
  let assistantMessage : Message :=
    { id := toString now, role := .assistant,
      content := jsOr (data.bind ResponseData.text) "Response received",
      timestamp := now }
  ({ s with messages := s.messages ++ [assistantMessage],
            isWaitingForResponse := false }, [])

/-- The `avatar.error` listener (lines 204-210). -/
def handleAvatarError (s : ChatState) (_data : Option ErrData) :
    ChatState × List Effect :=
  ({ s with isWaitingForResponse := false }, [.toastError "Avatar error"])

/-- Number of backend session-creation exchanges recorded in a trace. -/
def countFetch (es : List Effect) : Nat :=
  es.countP fun e => match e with | .fetchSessions _ _ => true | _ => false

/-- Number of Session Handle constructions recorded in a trace. -/
def countConstruct (es : List Effect) : Nat :=
  es.countP fun e => match e with | .constructHandle => true | _ => false

/-- A well-formed configuration used by concrete witnesses. -/
def envOK : Env :=
  { VITE_PLATFORM_API_KEY := some "sk_live_123", VITE_PLATFORM_API_URL := none }

/-- A component state with a live Session Handle and pending input "hi". -/
def readyState : ChatState :=
  { initialChatState with input := "hi", sessionManager := some () }

/-- Appending one element makes it the last entry. -/
theorem getLast?_append_singleton {α : Type} (l : List α) (a : α) :
    (l ++ [a]).getLast? = some a := by
  simp

/-- C6: if the pending input is empty after trimming, or a send is already
in flight, `sendMessage` is a complete no-op: the state (in particular the
transcript) is unchanged and no effect — in particular no forward call —
is issued. -/
theorem sendMessage_blank_or_inflight_noop (s : ChatState) (now : Nat)
    (out : AsyncOutcome) (h : jsTrim s.input = "" ∨ s.isSending = true) :
    sendMessage s now out = { preForward := none, final := s, effects := [] } := by
  unfold sendMessage
  rcases h with h | h <;> simp [h]

theorem sendMessage_blank_or_inflight_noop_w :
    sendMessage { initialChatState with input := "   ", sessionManager := some () } 7 .ok
      = { preForward := none,
          final := { initialChatState with input := "   ", sessionManager := some () },
          effects := [] }
    ∧ sendMessage { readyState with isSending := true } 7 .ok
      = { preForward := none, final := { readyState with isSending := true },
          effects := [] } :=
  ⟨sendMessage_blank_or_inflight_noop _ 7 .ok (Or.inl (by decide)),
   sendMessage_blank_or_inflight_noop _ 7 .ok (Or.inr rfl)⟩

/-- C7: with non-blank input, no send in flight, and no Session Handle,
`sendMessage` surfaces the not-initialized error signal and leaves the
state (in particular the transcript) unchanged, issuing no forward call. -/
theorem sendMessage_not_initialized (s : ChatState) (now : Nat)
    (out : AsyncOutcome) (h1 : ¬ jsTrim s.input = "") (h2 : s.isSending = false)
    (h3 : s.sessionManager = none) :
    sendMessage s now out =
      { preForward := none, final := s,
        effects := [.toastError "Session not initialized"] } := by
  unfold sendMessage
  simp [h1, h2, h3]

theorem sendMessage_not_initialized_w :
    sendMessage { initialChatState with input := "hi" } 7 .ok
      = { preForward := none, final := { initialChatState with input := "hi" },
          effects := [.toastError "Session not initialized"] } :=
  sendMessage_not_initialized _ 7 .ok (by decide) rfl rfl

/-- C8: when all guards pass (non-blank input, no send in flight, a
Session Handle exists), the trimmed user Message is appended as the
transcript's last entry in the state at which the forward call is issued
(optimistic append), `sending` and `awaitingResponse` are set there, the
forward call carries the trimmed text, and the appended Message is still
in the transcript at return whatever the forward outcome (no rollback). -/
theorem sendMessage_optimistic_append (s : ChatState) (now : Nat) (out : AsyncOutcome)
    (h1 : ¬ jsTrim s.input = "") (h2 : s.isSending = false)
    (h3 : s.sessionManager = some ()) :
    (sendMessage s now out).preForward =
      some { s with
             messages := s.messages ++
               [{ id := toString now, role := .user, content := jsTrim s.input,
                  timestamp := now }],
             input := "", isSending := true, isWaitingForResponse := true }
    ∧ (s.messages ++
        [({ id := toString now, role := .user, content := jsTrim s.input,
            timestamp := now } : Message)]).getLast? =
        some { id := toString now, role := .user, content := jsTrim s.input,
               timestamp := now }
    ∧ (sendMessage s now out).effects.head? = some (.forward (jsTrim s.input))
    ∧ (sendMessage s now out).final.messages =
        s.messages ++
          [{ id := toString now, role := .user, content := jsTrim s.input,
             timestamp := now }] := by
  unfold sendMessage
  rcases out <;> simp [h1, h2, h3, getLast?_append_singleton]

theorem sendMessage_optimistic_append_w :
    (sendMessage readyState 5 (.fail "boom")).preForward =
      some { readyState with
             messages := readyState.messages ++
               [{ id := toString 5, role := .user, content := jsTrim readyState.input,
                  timestamp := 5 }],
             input := "", isSending := true, isWaitingForResponse := true }
    ∧ (readyState.messages ++
        [({ id := toString 5, role := .user, content := jsTrim readyState.input,
            timestamp := 5 } : Message)]).getLast? =
        some { id := toString 5, role := .user, content := jsTrim readyState.input,
               timestamp := 5 }
    ∧ (sendMessage readyState 5 (.fail "boom")).effects.head? =
        some (.forward (jsTrim readyState.input))
    ∧ (sendMessage readyState 5 (.fail "boom")).final.messages =
        readyState.messages ++
          [{ id := toString 5, role := .user, content := jsTrim readyState.input,
             timestamp := 5 }] :=
  sendMessage_optimistic_append readyState 5 (.fail "boom") (by decide) rfl rfl

/-- C2 counterexample: a forward call that is issued and then fails does
clear `awaitingResponse` (the catch handler sets it false), contradicting
the claim that completion or failure of the forward call never clears it. -/
theorem send_fail_clears_waiting_cex :
    (sendMessage readyState 5 (.fail "network down")).preForward.isSome = true
    ∧ (sendMessage readyState 5 (.fail "network down")).final.isWaitingForResponse
        = false := by
  constructor <;> rfl

/-- C2 amended: when the forward call is actually issued, `sending` is
cleared at its completion whatever the outcome; `awaitingResponse` is left
set when the forward call resolves successfully (it is then cleared only
by a later response or error event), but a failing forward call does clear
`awaitingResponse` in its catch handler. -/
theorem sendMessage_flag_clearing (s : ChatState) (now : Nat) (out : AsyncOutcome)
    (h : (sendMessage s now out).preForward.isSome = true) :
    (sendMessage s now out).final.isSending = false
    ∧ (out = .ok → (sendMessage s now out).final.isWaitingForResponse = true)
    ∧ (∀ m, out = .fail m →
        (sendMessage s now out).final.isWaitingForResponse = false) := by
  unfold sendMessage at h ⊢
  by_cases h1 : (jsTrim s.input == "" || s.isSending) = true
  · simp [h1] at h
  · by_cases h2 : s.sessionManager.isNone = true
    · simp [h1, h2] at h
    · rcases out <;> simp [h1, h2]

theorem sendMessage_flag_clearing_w :
    (sendMessage readyState 5 .ok).final.isSending = false
    ∧ (sendMessage readyState 5 .ok).final.isWaitingForResponse = true
    ∧ (sendMessage readyState 5 (.fail "boom")).final.isSending = false
    ∧ (sendMessage readyState 5 (.fail "boom")).final.isWaitingForResponse = false :=
  ⟨(sendMessage_flag_clearing readyState 5 .ok (by decide)).1,
   (sendMessage_flag_clearing readyState 5 .ok (by decide)).2.1 rfl,
   (sendMessage_flag_clearing readyState 5 (.fail "boom") (by decide)).1,
   (sendMessage_flag_clearing readyState 5 (.fail "boom") (by decide)).2.2 "boom" rfl⟩

/-- C1 counterexample: a fully successful run of `initializeSession`
(backend exchange succeeds, connect resolves, handle retained) already has
`initializing = false` in the state at call return, before any status
event is observed — the flag is not cleared only by a `status=ready` event. -/
theorem init_return_clears_initializing_cex :
    (initializeSession envOK "avatar-1" initialChatState (.ok "s1") .ok).1.sessionManager
        = some ()
    ∧ (initializeSession envOK "avatar-1" initialChatState (.ok "s1") .ok).1.isInitializing
        = false := by
  constructor <;> rfl

/-- C1 amended: on a successful run of `initializeSession` the
`initializing` flag is already cleared at call return; independently, the
status handler clears it when a `status=ready` event is observed, and a
status event with any other (or missing) status value leaves the state
unchanged. -/
theorem initialize_ready_decoupling (env : Env) (avatarId : String) (s : ChatState)
    (sessionData : String) (s2 : ChatState) (d d2 : Option StatusData)
    (h0 : s.sessionManager = none)
    (hc : isPlatformSDKConfigured env = true)
    (ha : ¬ avatarId = "your-avatar-id-here")
    (hd : d.bind StatusData.status = some "ready")
    (hd2 : ¬ d2.bind StatusData.status = some "ready") :
    (initializeSession env avatarId s (.ok sessionData) .ok).1.sessionManager = some ()
    ∧ (initializeSession env avatarId s (.ok sessionData) .ok).1.isInitializing = false
    ∧ (handleStatus s2 d).1.isInitializing = false
    ∧ handleStatus s2 d2 = (s2, []) := by
  unfold initializeSession handleStatus
  simp [h0, hc, ha, hd, hd2]

theorem initialize_ready_decoupling_w :
    (initializeSession envOK "avatar-1" initialChatState (.ok "s1") .ok).1.sessionManager
        = some ()
    ∧ (initializeSession envOK "avatar-1" initialChatState (.ok "s1") .ok).1.isInitializing
        = false
    ∧ (handleStatus readyState (some { status := some "ready" })).1.isInitializing = false
    ∧ handleStatus readyState (some { status := some "connecting" }) = (readyState, []) :=
  initialize_ready_decoupling envOK "avatar-1" initialChatState "s1" readyState
    (some { status := some "ready" }) (some { status := some "connecting" })
    rfl (by decide) (by decide) rfl (by decide)

/-- A controller that already holds a Session Handle treats any further
`initializeSession` call as a no-op with an informational toast. -/
theorem initialize_noop_of_handle (env : Env) (avatarId : String) (s : ChatState)
    (f : FetchOutcome) (c : AsyncOutcome) (h : s.sessionManager.isSome = true) :
    initializeSession env avatarId s f c = (s, [.toastInfo "Session already initialized"]) := by
  unfold initializeSession
  simp [h]

/-- C3 counterexample: after a failed first `initializeSession` (no handle
retained) a second call repeats the work, so two calls in one controller
lifetime can perform two backend exchanges (first call: backend rejects)
and construct two Session Handles (first call: connect fails). -/
theorem initialize_retry_cex :
    countFetch ((initializeSession envOK "avatar-1" initialChatState (.httpErr none) .ok).2
      ++ (initializeSession envOK "avatar-1"
            (initializeSession envOK "avatar-1" initialChatState (.httpErr none) .ok).1
            (.ok "s1") .ok).2) = 2
    ∧ countConstruct
        ((initializeSession envOK "avatar-1" initialChatState (.ok "s1") (.fail "ws down")).2
      ++ (initializeSession envOK "avatar-1"
            (initializeSession envOK "avatar-1" initialChatState (.ok "s1") (.fail "ws down")).1
            (.ok "s1") .ok).2) = 2 := by
  constructor <;> rfl

/-- C3 amended: once an `initializeSession` call has succeeded (handle
retained), a second call without teardown is a no-op with an informational
signal, and the two calls together perform exactly one backend exchange
and construct exactly one Session Handle; only a failed first call (no
handle retained) lets a later call repeat the exchange. -/
theorem initialize_noop_after_success (env : Env) (avatarId : String) (s : ChatState)
    (sessionData : String) (f2 : FetchOutcome) (c2 : AsyncOutcome)
    (h0 : s.sessionManager = none)
    (hc : isPlatformSDKConfigured env = true)
    (ha : ¬ avatarId = "your-avatar-id-here") :
    initializeSession env avatarId
        (initializeSession env avatarId s (.ok sessionData) .ok).1 f2 c2 =
      ((initializeSession env avatarId s (.ok sessionData) .ok).1,
       [.toastInfo "Session already initialized"])
    ∧ countFetch ((initializeSession env avatarId s (.ok sessionData) .ok).2
        ++ (initializeSession env avatarId
              (initializeSession env avatarId s (.ok sessionData) .ok).1 f2 c2).2) = 1
    ∧ countConstruct ((initializeSession env avatarId s (.ok sessionData) .ok).2
        ++ (initializeSession env avatarId
              (initializeSession env avatarId s (.ok sessionData) .ok).1 f2 c2).2) = 1 := by
  have hres : (initializeSession env avatarId s (.ok sessionData) .ok).1.sessionManager
      = some () := by
    unfold initializeSession
    simp [h0, hc, ha]
  have hnoop := initialize_noop_of_handle env avatarId
    (initializeSession env avatarId s (.ok sessionData) .ok).1 f2 c2 (by rw [hres]; rfl)
  refine ⟨hnoop, ?_, ?_⟩ <;>
    rw [hnoop] <;>
    unfold initializeSession <;>
    simp [h0, hc, ha, countFetch, countConstruct]

theorem initialize_noop_after_success_w :
    initializeSession envOK "avatar-1"
        (initializeSession envOK "avatar-1" initialChatState (.ok "s1") .ok).1
        (.ok "s2") .ok =
      ((initializeSession envOK "avatar-1" initialChatState (.ok "s1") .ok).1,
       [.toastInfo "Session already initialized"])
    ∧ countFetch ((initializeSession envOK "avatar-1" initialChatState (.ok "s1") .ok).2
        ++ (initializeSession envOK "avatar-1"
              (initializeSession envOK "avatar-1" initialChatState (.ok "s1") .ok).1
              (.ok "s2") .ok).2) = 1
    ∧ countConstruct ((initializeSession envOK "avatar-1" initialChatState (.ok "s1") .ok).2
        ++ (initializeSession envOK "avatar-1"
              (initializeSession envOK "avatar-1" initialChatState (.ok "s1") .ok).1
              (.ok "s2") .ok).2) = 1 :=
  initialize_noop_after_success envOK "avatar-1" initialChatState "s1" (.ok "s2") .ok
    rfl (by decide) (by decide)

/-- C4: with an empty cache, `getPlatformSDK` fails — with the
configuration error message, which names the missing variable — exactly
when the API key is absent (undefined or empty, both JS-falsy) or equal to
the placeholder sentinel; otherwise it constructs the client from the key
and the configured base URL (defaulting to the fixed platform URL) and
caches it; with a populated cache it returns the cached client
unconditionally, for any environment. -/
theorem getPlatformSDK_spec (env : Env) :
    ((env.VITE_PLATFORM_API_KEY = none ∨ env.VITE_PLATFORM_API_KEY = some ""
        ∨ env.VITE_PLATFORM_API_KEY = some PLACEHOLDER) →
      getPlatformSDK env none = .error configErrorMsg)
    ∧ (∀ k, env.VITE_PLATFORM_API_KEY = some k → ¬ k = "" → ¬ k = PLACEHOLDER →
        getPlatformSDK env none =
          .ok ({ apiKey := k,
                 baseUrl := jsOr env.VITE_PLATFORM_API_URL "https://api.soulcypher.ai" },
               some { apiKey := k,
                      baseUrl := jsOr env.VITE_PLATFORM_API_URL "https://api.soulcypher.ai" }))
    ∧ (∀ (env2 : Env) (c : SoulCypherSDK), getPlatformSDK env2 (some c) = .ok (c, some c))
    ∧ List.IsInfix ("VITE_PLATFORM_API_KEY".data) configErrorMsg.data := by
  refine ⟨?_, ?_, ?_, by decide⟩
  · rintro (h | h | h) <;> simp [getPlatformSDK, h, PLACEHOLDER]
  · intro k hk h1 h2
    simp [getPlatformSDK, hk, h1, h2]
  · intro env2 c
    rfl

theorem getPlatformSDK_spec_w :
    getPlatformSDK { VITE_PLATFORM_API_KEY := none, VITE_PLATFORM_API_URL := none } none
        = .error configErrorMsg
    ∧ getPlatformSDK envOK none =
        .ok ({ apiKey := "sk_live_123",
               baseUrl := jsOr envOK.VITE_PLATFORM_API_URL "https://api.soulcypher.ai" },
             some { apiKey := "sk_live_123",
                    baseUrl := jsOr envOK.VITE_PLATFORM_API_URL "https://api.soulcypher.ai" })
    ∧ getPlatformSDK { VITE_PLATFORM_API_KEY := some "sk_xxxxx", VITE_PLATFORM_API_URL := none }
        (some { apiKey := "k", baseUrl := "b" })
        = .ok ({ apiKey := "k", baseUrl := "b" }, some { apiKey := "k", baseUrl := "b" }) :=
  ⟨(getPlatformSDK_spec { VITE_PLATFORM_API_KEY := none, VITE_PLATFORM_API_URL := none }).1
      (Or.inl rfl),
   (getPlatformSDK_spec envOK).2.1 "sk_live_123" rfl (by decide) (by decide),
   (getPlatformSDK_spec envOK).2.2.1
      { VITE_PLATFORM_API_KEY := some "sk_xxxxx", VITE_PLATFORM_API_URL := none }
      { apiKey := "k", baseUrl := "b" }⟩

/-- C5: when the API key is absent (undefined or empty) or equals the
placeholder sentinel, `isPlatformSDKConfigured` is false and
`initializeSession` on a controller without a handle fails with the
configuration error signal as its only effect — in particular without
issuing any network call; conversely, a present key different from the
sentinel makes `isPlatformSDKConfigured` true. -/
theorem isPlatformSDKConfigured_spec (env : Env) :
    ((env.VITE_PLATFORM_API_KEY = none ∨ env.VITE_PLATFORM_API_KEY = some ""
        ∨ env.VITE_PLATFORM_API_KEY = some PLACEHOLDER) →
      isPlatformSDKConfigured env = false
      ∧ ∀ (avatarId : String) (s : ChatState) (f : FetchOutcome) (c : AsyncOutcome),
          s.sessionManager = none →
          initializeSession env avatarId s f c =
            (s, [.toastError "Platform API key not configured"]))
    ∧ (∀ k, env.VITE_PLATFORM_API_KEY = some k → ¬ k = "" → ¬ k = PLACEHOLDER →
        isPlatformSDKConfigured env = true) := by
  constructor
  · intro h
    have hc : isPlatformSDKConfigured env = false := by
      rcases h with h | h | h <;> simp [isPlatformSDKConfigured, jsTruthy, h, PLACEHOLDER]
    refine ⟨hc, ?_⟩
    intro avatarId s f c h0
    unfold initializeSession
    simp [h0, hc]
  · intro k hk h1 h2
    simp [isPlatformSDKConfigured, jsTruthy, hk, h1, h2]

theorem isPlatformSDKConfigured_spec_w :
    isPlatformSDKConfigured
        { VITE_PLATFORM_API_KEY := some "sk_xxxxx", VITE_PLATFORM_API_URL := none } = false
    ∧ initializeSession
        { VITE_PLATFORM_API_KEY := some "sk_xxxxx", VITE_PLATFORM_API_URL := none }
        "avatar-1" initialChatState (.ok "s1") .ok =
        (initialChatState, [.toastError "Platform API key not configured"])
    ∧ isPlatformSDKConfigured envOK = true :=
  ⟨((isPlatformSDKConfigured_spec
        { VITE_PLATFORM_API_KEY := some "sk_xxxxx", VITE_PLATFORM_API_URL := none }).1
      (Or.inr (Or.inr rfl))).1,
   ((isPlatformSDKConfigured_spec
        { VITE_PLATFORM_API_KEY := some "sk_xxxxx", VITE_PLATFORM_API_URL := none }).1
      (Or.inr (Or.inr rfl))).2 "avatar-1" initialChatState (.ok "s1") .ok rfl,
   (isPlatformSDKConfigured_spec envOK).2 "sk_live_123" rfl (by decide) (by decide)⟩

/-- C9 counterexample: a response event whose payload carries the present
but empty text field `""` appends the default placeholder, not the
payload's text — JS `||` treats the empty string like an absent field. -/
theorem response_empty_text_cex :
    (some { text := some "" } : Option ResponseData).bind ResponseData.text = some ""
    ∧ (handleResponse initialChatState (some { text := some "" }) 3).1.messages =
        [{ id := toString 3, role := .assistant, content := "Response received",
           timestamp := 3 }]
    ∧ ¬ ("Response received" = "") := by
  refine ⟨rfl, rfl, by decide⟩

/-- C9 amended: every observed response event appends exactly one
assistant Message and clears `awaitingResponse`; the Message's content is
the payload's text field when that is a present non-empty string, and the
default placeholder when the field is absent (or empty, which JS `||`
treats as absent). -/
theorem handleResponse_spec (s : ChatState) (data : Option ResponseData) (now : Nat) :
    (handleResponse s data now).1.messages =
      s.messages ++
        [{ id := toString now, role := .assistant,
           content := jsOr (data.bind ResponseData.text) "Response received",
           timestamp := now }]
    ∧ (handleResponse s data now).1.messages.length = s.messages.length + 1
    ∧ (handleResponse s data now).1.isWaitingForResponse = false
    ∧ (∀ t, data.bind ResponseData.text = some t → ¬ t = "" →
        jsOr (data.bind ResponseData.text) "Response received" = t)
    ∧ (data.bind ResponseData.text = none →
        jsOr (data.bind ResponseData.text) "Response received" = "Response received") := by
  refine ⟨rfl, by simp [handleResponse], rfl, ?_, ?_⟩
  · intro t ht h1
    simp [jsOr, ht, h1]
  · intro h
    simp [jsOr, h]

theorem handleResponse_spec_w :
    (handleResponse initialChatState (some { text := some "hello" }) 4).1.messages =
      initialChatState.messages ++
        [{ id := toString 4, role := .assistant,
           content := jsOr ((some { text := some "hello" } : Option ResponseData).bind
             ResponseData.text) "Response received",
           timestamp := 4 }]
    ∧ (handleResponse initialChatState (some { text := some "hello" }) 4).1.isWaitingForResponse
        = false
    ∧ jsOr ((some { text := some "hello" } : Option ResponseData).bind ResponseData.text)
        "Response received" = "hello" :=
  ⟨(handleResponse_spec initialChatState (some { text := some "hello" }) 4).1,
   (handleResponse_spec initialChatState (some { text := some "hello" }) 4).2.2.1,
   (handleResponse_spec initialChatState (some { text := some "hello" }) 4).2.2.2.1
      "hello" rfl (by decide)⟩

/-- C10: an input event whose payload is absent or whose inputType differs
from "voice" leaves the whole controller state (transcript and all status
flags) unchanged and issues no effect; an input event with
inputType "voice" appends a user Message (payload text, or the default
placeholder) and sets `awaitingResponse`. -/
theorem handleInput_voice_gate (s : ChatState) (data : Option InputData) (now : Nat) :
    (¬ data.bind InputData.inputType = some "voice" → handleInput s data now = (s, []))
    ∧ (∀ d, data = some d → d.inputType = some "voice" →
        handleInput s data now =
          ({ s with
             messages := s.messages ++
               [{ id := toString now, role := .user,
                  content := jsOr d.text "Voice input received", timestamp := now }],
             isWaitingForResponse := true }, [])) := by
  constructor
  · intro h
    unfold handleInput
    rcases data with _ | d
    · rfl
    · simp at h
      simp [h]
  · intro d hd hv
    subst hd
    unfold handleInput
    simp [hv]

theorem handleInput_voice_gate_w :
    handleInput readyState (some { inputType := some "text", text := some "yo" }) 9
        = (readyState, [])
    ∧ handleInput readyState (some { inputType := some "voice", text := none }) 9 =
        ({ readyState with
           messages := readyState.messages ++
             [{ id := toString 9, role := .user,
                content := jsOr (none : Option String) "Voice input received",
                timestamp := 9 }],
           isWaitingForResponse := true }, []) :=
  ⟨(handleInput_voice_gate readyState (some { inputType := some "text", text := some "yo" }) 9).1
      (by decide),
   (handleInput_voice_gate readyState (some { inputType := some "voice", text := none }) 9).2
      { inputType := some "voice", text := none } rfl rfl⟩
